import Mathlib

/-!
Verification development for the multi-provider AI orchestration and
key-management subsystem of the lumnicode backend.

Shallow embedding of:
- `src/backend/src/models/models.py` (ProviderEnum, UserAPIKey),
- `src/backend/src/services/api_key_manager.py` (add_api_key, get_available_api_key),
- `src/backend/src/services/api_key_validator.py` (per-provider probe classifiers),
- `src/backend/src/services/multi_provider_ai_service.py` (provider fallback loops),
- `src/backend/src/api/websocket.py` (session registry and control handlers),
- `src/backend/src/services/ai_generation_service.py` (generation pipeline,
  stop/pause/resume).

Outbound HTTP traffic, JSON parsing and the database engine are external
collaborators; they enter the model as explicit oracle parameters (a call
outcome, a parse function, a probe outcome).  Everything else is translated
from the Python source, branch by branch.
-/

/-- Provider enumeration exactly as declared by `ProviderEnum` in
`src/backend/src/models/models.py` (member order is the iteration order of a
Python `Enum`, which `_get_available_providers` relies on). -/
inductive Provider where
  | openai
  | google
  | huggingface
  | together
  | fireworks
  | other
deriving DecidableEq, Repr

/-- Iteration order of `for provider in ProviderEnum` (declaration order). -/
def providerEnumList : List Provider :=
  [.openai, .google, .huggingface, .together, .fireworks, .other]

/-- String value of each enum member (`provider.value` in the source). -/
def provider_value : Provider → String
  | .openai => "openai"
  | .google => "google"
  | .huggingface => "huggingface"
  | .together => "together"
  | .fireworks => "fireworks"
  | .other => "other"

/-- One stored user API key.  The field set is the one the service layer
reads and writes: `api_key_manager.py` filters on `display_name`,
`is_active`, `is_validated`, mutates `api_key`, `last_validated_at`,
`usage_count`, `current_month_usage`, `last_used_at`, and checks
`monthly_limit`; the API schema in `src/backend/src/api/api_keys.py` exposes
the same fields.  (`models.py` itself declares only a subset of these
columns plus a `(user_id, provider)` unique constraint; the divergence is
recorded where it matters, in the C6 analysis.)  Timestamps are abstract
`Nat` instants; `id` is the primary-key string. -/
structure UserAPIKey where
  id : String
  user_id : Nat
  provider : Provider
  api_key : String
  display_name : Option String
  is_active : Bool
  is_validated : Bool
  last_validated_at : Option Nat
  last_used_at : Option Nat
  usage_count : Nat
  monthly_limit : Option Nat
  current_month_usage : Nat
deriving DecidableEq, Repr

/-- Python truthiness test
`if key.monthly_limit and key.current_month_usage >= key.monthly_limit`
from `get_available_api_key` (api_key_manager.py lines 142-145): a `None`
monthly limit and a `0` monthly limit are both falsy, so neither triggers
the exhaustion branch. -/
def monthly_limit_exceeded (k : UserAPIKey) : Bool :=
  match k.monthly_limit with
  | none => false
  | some n => decide (0 < n) && decide (n ≤ k.current_month_usage)

/-- Row predicate of the `get_available_api_key` query: same user, same
provider, `is_active == True`, `is_validated == True`. -/
def availableKeyFilter (uid : Nat) (p : Provider) (k : UserAPIKey) : Bool :=
  decide (k.user_id = uid) && decide (k.provider = p) && k.is_active && k.is_validated

/-- `APIKeyManager.get_available_api_key` (api_key_manager.py lines 119-147).
The database table is a list in insertion order; `.first()` is the first
matching row.  The rate-limit block of the source computes
`time_since_last_use` and then does nothing with it (`pass`), so it has no
effect on the result and does not appear here. -/
def get_available_api_key (db : List UserAPIKey) (uid : Nat) (p : Provider) :
    Option UserAPIKey :=
  match db.find? (availableKeyFilter uid p) with
  | none => none
  | some key => if monthly_limit_exceeded key then none else some key

/-- `ValidationResult` from api_key_validator.py (quota metadata is carried
by the source as an open dict of provider-reported extras; it does not
participate in validity classification and is not modelled). -/
structure ValidationResult where
  is_valid : Bool
  error_message : Option String
deriving DecidableEq, Repr

/-- Outcome of one validation probe request: either an HTTP response with a
status code and body text, or a network-level failure (timeout, DNS,
connection reset), which the source observes as a raised exception. -/
inductive ProbeOutcome where
  | http (status_code : Nat) (body : String)
  | network (msg : String)
deriving DecidableEq, Repr

/-- `_validate_openai_key` (api_key_validator.py lines 63-95). -/
def validate_openai_key : ProbeOutcome → ValidationResult
  | .http 200 _ => ⟨true, none⟩
  | .http 401 _ => ⟨false, some "Invalid API key"⟩
  | .http 429 _ => ⟨false, some "Rate limit exceeded"⟩
  | .http s body => ⟨false, some ("API error: " ++ toString s ++ " - " ++ body)⟩
  | .network msg => ⟨false, some ("Network error: " ++ msg)⟩

/-- `_validate_google_key` (api_key_validator.py lines 97-126).  Note the
only invalid-key branch is HTTP 400; there is no 401 branch, so a 401 falls
through to the generic API-error message. -/
def validate_google_key : ProbeOutcome → ValidationResult
  | .http 200 _ => ⟨true, none⟩
  | .http 400 _ => ⟨false, some "Invalid API key"⟩
  | .http s body => ⟨false, some ("API error: " ++ toString s ++ " - " ++ body)⟩
  | .network msg => ⟨false, some ("Network error: " ++ msg)⟩

/-- Substring test used by the anthropic validator:
`"invalid_api_key" in str(error_data).lower()`. -/
def bodyMentionsInvalidKey (body : String) : Bool :=
  decide ((body.toLower.splitOn "invalid_api_key").length ≠ 1)

/-- `_validate_anthropic_key` (api_key_validator.py lines 128-159). -/
def validate_anthropic_key : ProbeOutcome → ValidationResult
  | .http 200 _ => ⟨true, none⟩
  | .http 401 _ => ⟨false, some "Invalid API key"⟩
  | .http 400 body =>
      if bodyMentionsInvalidKey body then ⟨false, some "Invalid API key"⟩
      else ⟨true, none⟩
  | .http s body => ⟨false, some ("API error: " ++ toString s ++ " - " ++ body)⟩
  | .network msg => ⟨false, some ("Network error: " ++ msg)⟩

/-- Shared shape of `_validate_huggingface_key`, `_validate_together_key`,
`_validate_fireworks_key`, `_validate_cohere_key` and `_validate_groq_key`
(api_key_validator.py lines 161-283): 200 valid, 401 invalid key, any other
status a generic API error, exception a network error. -/
def validate_simple_key : ProbeOutcome → ValidationResult
  | .http 200 _ => ⟨true, none⟩
  | .http 401 _ => ⟨false, some "Invalid API key"⟩
  | .http s body => ⟨false, some ("API error: " ++ toString s ++ " - " ++ body)⟩
  | .network msg => ⟨false, some ("Network error: " ++ msg)⟩

/-- The eight per-provider probe classifiers of api_key_validator.py. -/
inductive ValidatorKind where
  | openai
  | google
  | anthropic
  | huggingface
  | together
  | fireworks
  | cohere
  | groq
deriving DecidableEq, Repr

/-- Dispatch to the per-provider classifier. -/
def classify_probe : ValidatorKind → ProbeOutcome → ValidationResult
  | .openai => validate_openai_key
  | .google => validate_google_key
  | .anthropic => validate_anthropic_key
  | .huggingface => validate_simple_key
  | .together => validate_simple_key
  | .fireworks => validate_simple_key
  | .cohere => validate_simple_key
  | .groq => validate_simple_key

/-- Result value of `APIKeyManager.add_api_key`. -/
inductive AddKeyOutcome where
  | success (key_id : String) (message : String)
  | failure (error : Option String)
deriving DecidableEq, Repr

/-- Row predicate of the existing-key query in `add_api_key`: same user,
same provider, `display_name ==` the raw request parameter (an SQL
comparison against NULL when the parameter is absent, which no row whose
name was defaulted at creation satisfies). -/
def sameTupleFilter (uid : Nat) (p : Provider) (dn : Option String)
    (k : UserAPIKey) : Bool :=
  decide (k.user_id = uid) && decide (k.provider = p) && decide (k.display_name = dn)

/-- `APIKeyManager.add_api_key` (api_key_manager.py lines 22-92), after the
validation probe whose result enters as `validation`.  On an invalid key the
validator error is returned untouched.  Otherwise the first row matching
(user, provider, display_name) is overwritten in place (secret replaced,
validation stamp refreshed); if none matches, a fresh row is appended with
`display_name or f"{provider.value} Key"` (Python `or`: `None` and the empty
string both fall back to the default), `is_validated=True` and
`last_validated_at=now`.  `new_id` is the generated primary key, `now` the
commit instant. -/
def add_api_key (db : List UserAPIKey) (uid : Nat) (p : Provider)
    (raw_key : String) (display_name : Option String)
    (validation : ValidationResult) (now : Nat) (new_id : String) :
    AddKeyOutcome × List UserAPIKey :=
  if validation.is_valid = false then
    (.failure validation.error_message, db)
  else
    match db.find? (sameTupleFilter uid p display_name) with
    | some existing_key =>
        (.success existing_key.id
          ("Updated " ++ provider_value p ++ " API key successfully"),
         db.map fun k =>
           if k.id = existing_key.id then
             { k with api_key := raw_key, is_validated := true,
                      last_validated_at := some now }
           else k)
    | none =>
        let dn : String :=
          match display_name with
          | some s => if s = "" then provider_value p ++ " Key" else s
          | none => provider_value p ++ " Key"
        let new_key : UserAPIKey :=
          { id := new_id, user_id := uid, provider := p, api_key := raw_key,
            display_name := some dn, is_active := true, is_validated := true,
            last_validated_at := some now, last_used_at := none,
            usage_count := 0, monthly_limit := none, current_month_usage := 0 }
        (.success new_id ("Added " ++ provider_value p ++ " API key successfully"),
         db ++ [new_key])

/-- Observable outcome of one multi-provider task run: the returned value or
raised error, the providers actually handed to `_call_provider` in order,
and the key ids passed to `update_key_usage`, in order. -/
structure TaskOutcome where
  result : Except String String
  attempted : List Provider
  usage_recorded : List String
deriving Repr

/-- `MultiProviderAIService._get_available_providers`
(multi_provider_ai_service.py lines 70-81): iterate `ProviderEnum` in
declaration order, keep the providers for which `get_available_api_key`
returns a key. -/
def get_available_providers (db : List UserAPIKey) (uid : Nat) :
    List (Provider × UserAPIKey) :=
  providerEnumList.filterMap fun p =>
    (get_available_api_key db uid p).map fun k => (p, k)

/-- Shared fallback loop of `generate_code_suggestion`, `analyze_code`,
`complete_code`, `refactor_code` and `explain_code`
(multi_provider_ai_service.py lines 343-373 and the four clones): for each
(provider, key) in order, call the provider; on success record usage for
exactly that key via `update_key_usage(str(api_key.id), 1)` and return
immediately; on an exception log and continue; when the list is exhausted
raise the task's aggregate failure message.  `call` is the outcome of
`_call_provider` (network oracle): `.ok` a completion text, `.error` a
raised exception rendered as its message. -/
def provider_fallback_loop (call : Provider → UserAPIKey → Except String String)
    (fail_msg : String) : List (Provider × UserAPIKey) → TaskOutcome
  | [] => ⟨.error fail_msg, [], []⟩
  | (p, k) :: rest =>
    match call p k with
    | .ok r => ⟨.ok r, [p], [k.id]⟩
    | .error _ =>
        let o := provider_fallback_loop call fail_msg rest
        ⟨o.result, p :: o.attempted, o.usage_recorded⟩

/-- `MultiProviderAIService.generate_code_suggestion`
(multi_provider_ai_service.py lines 327-375), provider-selection skeleton:
empty enumeration raises `ValueError("No API keys available for AI
services")` before any provider call; otherwise the fallback loop runs with
the aggregate message `"All available providers failed"`. -/
def generate_code_suggestion (db : List UserAPIKey) (uid : Nat)
    (call : Provider → UserAPIKey → Except String String) : TaskOutcome :=
  let available := get_available_providers db uid
  if available.isEmpty then ⟨.error "No API keys available for AI services", [], []⟩
  else provider_fallback_loop call "All available providers failed" available

/-- Fallback loop of `generate_text` (multi_provider_ai_service.py lines
607-616): identical control flow to `provider_fallback_loop`, except that
the success branch returns the response directly and never calls
`update_key_usage`. -/
def generate_text_loop (call : Provider → UserAPIKey → Except String String) :
    List (Provider × UserAPIKey) → TaskOutcome
  | [] => ⟨.error "All available providers failed for text generation", [], []⟩
  | (p, k) :: rest =>
    match call p k with
    | .ok r => ⟨.ok r, [p], []⟩
    | .error _ =>
        let o := generate_text_loop call rest
        ⟨o.result, p :: o.attempted, o.usage_recorded⟩

/-- `MultiProviderAIService.generate_text` (multi_provider_ai_service.py
lines 590-616). -/
def generate_text (db : List UserAPIKey) (uid : Nat)
    (call : Provider → UserAPIKey → Except String String) : TaskOutcome :=
  let available := get_available_providers db uid
  if available.isEmpty then ⟨.error "No API keys available for AI services", [], []⟩
  else generate_text_loop call available

/-- One entry of the planned file manifest (`{path, type, description}`),
as consumed by the step-3 loop; defaults for missing `type`/`description`
are applied by the manifest parse. -/
structure FileInfo where
  path : String
  ftype : String
  description : String
deriving DecidableEq, Repr

/-- Parsed planning-step manifest: `structure` entry list, dependency list
and optional project description (`structure_data` in the source). -/
structure StructureData where
  files : List FileInfo
  dependencies : List String
  description : Option String
deriving DecidableEq, Repr

/-- One AI-generation session record, the dict built by `create_ai_session`
(websocket.py lines 195-212).  `context` holds the parsed manifest once the
pipeline stores it. -/
structure SessionData where
  id : String
  project_id : String
  user_id : String
  status : String
  progress : Nat
  prompt : String
  tech_stack : List String
  context : Option StructureData
  created_at : Nat
  updated_at : Nat
deriving DecidableEq, Repr

/-- The process-wide session registry `manager.ai_sessions`
(websocket.py line 24), keyed by session id, in insertion order. -/
abbrev Registry := List (String × SessionData)

/-- `get_ai_session` (websocket.py lines 214-217): `dict.get`. -/
def get_ai_session : Registry → String → Option SessionData
  | [], _ => none
  | (k, v) :: rest, sid => if k = sid then some v else get_ai_session rest sid

/-- Pointwise edit of the entry stored under `sid` (identity when absent). -/
def mapSession : Registry → String → (SessionData → SessionData) → Registry
  | [], _, _ => []
  | (k, v) :: rest, sid, f =>
      (if k = sid then (k, f v) else (k, v)) :: mapSession rest sid f

/-- `update_ai_session` (websocket.py lines 219-224): when the id is
registered, merge the patch and stamp `updated_at`; otherwise do nothing.
The source merges arbitrary keyword fields; `patch` is that merge. -/
def update_ai_session (reg : Registry) (sid : String)
    (patch : SessionData → SessionData) (now : Nat) : Registry :=
  if (get_ai_session reg sid).isSome then
    mapSession reg sid fun s => { patch s with updated_at := now }
  else reg

/-- `create_ai_session` (websocket.py lines 194-212): registers a fresh
session with status `"running"` and progress 0 (`session_id` is the uuid
generated by the source, `now` the creation instant). -/
def create_ai_session (reg : Registry) (sid project_id user_id prompt : String)
    (tech_stack : List String) (now : Nat) : Registry :=
  reg ++ [(sid, { id := sid, project_id := project_id, user_id := user_id,
                  status := "running", progress := 0, prompt := prompt,
                  tech_stack := tech_stack, context := none,
                  created_at := now, updated_at := now })]

/-- `handle_stop_ai` (websocket.py lines 106-130), registry effect: when the
session exists its status is set to `"stopped"` unconditionally (no check of
the current status) and `updated_at` is stamped; the stop confirmation
message sent afterwards does not touch the registry. -/
def handle_stop_ai (reg : Registry) (sid : String) (now : Nat) : Registry :=
  if (get_ai_session reg sid).isSome then
    mapSession reg sid fun s => { s with status := "stopped", updated_at := now }
  else reg

/-- `handle_pause_ai` (websocket.py lines 132-155), registry effect:
unconditional status write `"paused"` for any existing session. -/
def handle_pause_ai (reg : Registry) (sid : String) (now : Nat) : Registry :=
  if (get_ai_session reg sid).isSome then
    mapSession reg sid fun s => { s with status := "paused", updated_at := now }
  else reg

/-- `handle_resume_ai` (websocket.py lines 157-180), registry effect:
unconditional status write `"running"` for any existing session — the
handler does not check that the session is currently paused. -/
def handle_resume_ai (reg : Registry) (sid : String) (now : Nat) : Registry :=
  if (get_ai_session reg sid).isSome then
    mapSession reg sid fun s => { s with status := "running", updated_at := now }
  else reg

/-- State owned by `AIGenerationService`: the shared session registry plus
the keys of `active_generations`, the per-session background-task table. -/
structure GenState where
  sessions : Registry
  active : List String
deriving Repr

/-- `AIGenerationService.start_generation` (ai_generation_service.py lines
21-48), state effect: create the session and register the background task. -/
def start_generation (st : GenState) (sid project_id user_id prompt : String)
    (tech_stack : List String) (now : Nat) : GenState :=
  { sessions := create_ai_session st.sessions sid project_id user_id prompt
      tech_stack now,
    active := sid :: st.active }

/-- Cleanup step of the background task (`finally` block,
ai_generation_service.py lines 214-217): deregister from
`active_generations`. -/
def cleanup_generation (st : GenState) (sid : String) : GenState :=
  { st with active := if sid ∈ st.active then st.active.erase sid else st.active }

/-- `AIGenerationService.stop_generation` (ai_generation_service.py lines
393-399): cancel and deregister the background task when one is active, then
set the session status to `"stopped"` via `update_ai_session`
(unconditionally with respect to the current status). -/
def stop_generation (st : GenState) (sid : String) (now : Nat) : GenState :=
  { sessions := update_ai_session st.sessions sid
      (fun s => { s with status := "stopped" }) now,
    active := if sid ∈ st.active then st.active.erase sid else st.active }

/-- `AIGenerationService.pause_generation` (ai_generation_service.py lines
401-403): unconditional status write `"paused"`. -/
def pause_generation (reg : Registry) (sid : String) (now : Nat) : Registry :=
  update_ai_session reg sid (fun s => { s with status := "paused" }) now

/-- `AIGenerationService.resume_generation` (ai_generation_service.py lines
405-411): set the status to `"running"` only when the session exists and its
current status is `"paused"`; otherwise no write happens. -/
def resume_generation (reg : Registry) (sid : String) (now : Nat) : Registry :=
  match get_ai_session reg sid with
  | some s =>
      if s.status = "paused" then
        update_ai_session reg sid (fun t => { t with status := "running" }) now
      else reg
  | none => reg

/-- One progress event pushed through `send_progress_update`
(websocket.py lines 183-192): type, message, `progress` (default 0), plus
the extra fields attached by `file_created` events. -/
structure Event where
  etype : String
  message : String
  progress : Nat
  current_file : Option String
  total_files : Option Nat
  completed_files : Option Nat
deriving DecidableEq, Repr

/-- Event with no extra fields (plain `send_progress_update` call). -/
def mkEvent (etype message : String) (progress : Nat) : Event :=
  ⟨etype, message, progress, none, none, none⟩

/-- Result of the step-3 file loop: final registry, events emitted by the
loop, paths persisted by the loop (in order) and whether the loop exited
early instead of finishing the manifest. -/
structure LoopResult where
  reg : Registry
  events : List Event
  files : List String
  halted : Bool
deriving Repr

/-- Step-3 file-generation loop of `_generate_project`
(ai_generation_service.py lines 151-184).  Per manifest entry: first the
environment may act (`ext step` applies the registry effects of any external
handler that ran since the previous boundary — the loop body itself never
writes the registry); then the loop re-reads the session and exits with a
`stopped` event if it is gone or its status is not `"running"`; then
`_generate_file_content` runs (`gen`, `none` when it swallowed an exception,
in which case the entry is skipped with no event); on content the file is
persisted, `completed_files` increments and a `file_created` event is
emitted with progress `int(30 + (completed/total) * 60)`. -/
def run_file_loop (ext : Nat → Registry → Registry)
    (gen : FileInfo → Option String) (sid : String) :
    List FileInfo → Nat → Nat → Nat → Registry → LoopResult
  | [], _, _, _, reg => ⟨reg, [], [], false⟩
  | f :: rest, completed, total, step, reg =>
    let reg1 := ext step reg
    let halted :=
      match get_ai_session reg1 sid with
      | none => true
      | some s => decide (s.status ≠ "running")
    if halted then
      ⟨reg1, [mkEvent "stopped" "Generation stopped by user" 0], [], true⟩
    else
      match gen f with
      | none => run_file_loop ext gen sid rest completed total (step + 1) reg1
      | some _content =>
          let completed1 := completed + 1
          let prog := 30 + completed1 * 60 / total
          let r := run_file_loop ext gen sid rest completed1 total (step + 1) reg1
          ⟨r.reg,
           { mkEvent "file_created" ("Created " ++ f.path) prog with
               current_file := some f.path, total_files := some total,
               completed_files := some completed1 } :: r.events,
           f.path :: r.files, r.halted⟩

/-- Step-3 loop under `AIGenerationService.stop_generation`
(ai_generation_service.py lines 393-399) arriving while iteration
`cancel_at` is inside its provider call.  `stop_generation` sets the session
status to `"stopped"` and calls `task.cancel()` on the running background
task; per asyncio semantics the task then terminates at its in-flight await
with `CancelledError`, which — being a `BaseException`, not an `Exception` —
is not caught by the handler at line 209, so the loop emits no further event
and persists no further file.  Before `cancel_at` the loop behaves exactly
like `run_file_loop`. -/
def run_file_loop_cancel (ext : Nat → Registry → Registry)
    (gen : FileInfo → Option String) (sid : String) (cancel_at : Nat) (now : Nat) :
    List FileInfo → Nat → Nat → Nat → Registry → LoopResult
  | [], _, _, _, reg => ⟨reg, [], [], false⟩
  | f :: rest, completed, total, step, reg =>
    let reg1 := ext step reg
    let halted :=
      match get_ai_session reg1 sid with
      | none => true
      | some s => decide (s.status ≠ "running")
    if halted then
      ⟨reg1, [mkEvent "stopped" "Generation stopped by user" 0], [], true⟩
    else if step = cancel_at then
      ⟨update_ai_session reg1 sid (fun s => { s with status := "stopped" }) now,
       [], [], true⟩
    else
      match gen f with
      | none => run_file_loop_cancel ext gen sid cancel_at now rest completed total
          (step + 1) reg1
      | some _content =>
          let completed1 := completed + 1
          let prog := 30 + completed1 * 60 / total
          let r := run_file_loop_cancel ext gen sid cancel_at now rest completed1
            total (step + 1) reg1
          ⟨r.reg,
           { mkEvent "file_created" ("Created " ++ f.path) prog with
               current_file := some f.path, total_files := some total,
               completed_files := some completed1 } :: r.events,
           f.path :: r.files, r.halted⟩

/-- Oracle inputs of one `_generate_project` run:
`project_exists` is the step-0 database lookup; `plan_response` the outcome
of the planning `generate_text` call (`.error` models a raised exception);
`parse_json` models `json.loads` plus the `.get` defaulting into
`StructureData`; `scaffold` the outcome of step 2
(`_generate_package_json` + `_generate_config_files` + their `_create_file`
calls), returning the persisted config file paths or a raised exception —
note the two helpers as written reference an undefined `user_id` name, so in
the unmodified source step 2 always raises `NameError`; `gen` is the
step-3 `_generate_file_content` outcome per entry; `ext` the external
registry actions at loop boundaries; `now` the timestamp oracle. -/
structure PipelineEnv where
  project_exists : Bool
  plan_response : Except String String
  parse_json : String → Option StructureData
  scaffold : Except String (List String)
  gen : FileInfo → Option String
  ext : Nat → Registry → Registry
  now : Nat

/-- Result of one `_generate_project` run: final registry, events published
in order, file paths persisted in order. -/
structure PipelineResult where
  reg : Registry
  events : List Event
  files : List String
deriving Repr

/-- `AIGenerationService._generate_project` (ai_generation_service.py lines
50-217), step by step: missing project → error event, early return with no
status write; set status `"running"`, progress 10; planning call — a raised
exception lands in the handler at lines 209-212 which publishes
`"Generation failed: ..."` and sets status `"error"`; an empty response or a
parse failure publishes an error event and returns early with no status
write; store the manifest at progress 20; step-2 scaffold — an exception
again lands in the outer handler; progress 30; the step-3 loop; when the
loop halted early the task returns as is, otherwise finalize publishes
progress 90, sets status `"completed"`, progress 100, and publishes the
`completed` event.  The `finally` deregistration acts on the task table,
not on the registry, and is modelled by `cleanup_generation`. -/
def generate_project (env : PipelineEnv) (sid : String) (reg0 : Registry) :
    PipelineResult :=
  if env.project_exists = false then
    ⟨reg0, [mkEvent "error" "Project not found" 0], []⟩
  else
    let reg1 := update_ai_session reg0 sid
      (fun s => { s with status := "running", progress := 10 }) env.now
    let ev1 : List Event :=
      [mkEvent "progress" "Analyzing requirements and planning project structure..." 10]
    match env.plan_response with
    | .error e =>
        ⟨update_ai_session reg1 sid (fun s => { s with status := "error" }) env.now,
         ev1 ++ [mkEvent "error" ("Generation failed: " ++ e) 0], []⟩
    | .ok resp =>
      if resp = "" then
        ⟨reg1, ev1 ++ [mkEvent "error" "Failed to generate project structure" 0], []⟩
      else
        match env.parse_json resp with
        | none =>
            ⟨reg1, ev1 ++ [mkEvent "error" "Failed to parse project structure" 0], []⟩
        | some sd =>
          let reg2 := update_ai_session reg1 sid
            (fun s => { s with progress := 20, context := some sd }) env.now
          let ev2 := ev1 ++ [mkEvent "progress" "Creating configuration files..." 20]
          match env.scaffold with
          | .error e =>
              ⟨update_ai_session reg2 sid (fun s => { s with status := "error" }) env.now,
               ev2 ++ [mkEvent "error" ("Generation failed: " ++ e) 0], []⟩
          | .ok scaffold_files =>
            let reg3 := update_ai_session reg2 sid
              (fun s => { s with progress := 30 }) env.now
            let ev3 := ev2 ++
              [mkEvent "progress" "Generating main application files..." 30]
            let lr := run_file_loop env.ext env.gen sid sd.files 0 sd.files.length 0 reg3
            if lr.halted then
              ⟨lr.reg, ev3 ++ lr.events, scaffold_files ++ lr.files⟩
            else
              let ev4 := ev3 ++ lr.events ++ [mkEvent "progress" "Finalizing project..." 90]
              let reg5 := update_ai_session lr.reg sid
                (fun s => { s with status := "completed", progress := 100 }) env.now
              ⟨reg5, ev4 ++
                 [mkEvent "completed" "Project generation completed successfully!" 100],
               scaffold_files ++ lr.files⟩

theorem get_mapSession_self (reg : Registry) (sid : String)
    (f : SessionData → SessionData) :
    get_ai_session (mapSession reg sid f) sid = (get_ai_session reg sid).map f := by
  induction reg with
  | nil => rfl
  | cons e rest ih =>
      obtain ⟨k, v⟩ := e
      simp only [mapSession]
      by_cases hk : k = sid
      · subst hk
        rw [if_pos rfl]
        simp [get_ai_session]
      · rw [if_neg hk]
        simp [get_ai_session, hk, ih]

theorem get_update_self (reg : Registry) (sid : String)
    (patch : SessionData → SessionData) (now : Nat) :
    get_ai_session (update_ai_session reg sid patch now) sid =
      (get_ai_session reg sid).map fun s => { patch s with updated_at := now } := by
  unfold update_ai_session
  cases h : get_ai_session reg sid with
  | none => simp [h]
  | some s => simp [h, get_mapSession_self]

theorem get_handle_stop_self (reg : Registry) (sid : String) (now : Nat) :
    get_ai_session (handle_stop_ai reg sid now) sid =
      (get_ai_session reg sid).map
        fun s => { s with status := "stopped", updated_at := now } := by
  unfold handle_stop_ai
  cases h : get_ai_session reg sid with
  | none => simp [h]
  | some s => simp [h, get_mapSession_self]

theorem get_handle_pause_self (reg : Registry) (sid : String) (now : Nat) :
    get_ai_session (handle_pause_ai reg sid now) sid =
      (get_ai_session reg sid).map
        fun s => { s with status := "paused", updated_at := now } := by
  unfold handle_pause_ai
  cases h : get_ai_session reg sid with
  | none => simp [h]
  | some s => simp [h, get_mapSession_self]

theorem get_handle_resume_self (reg : Registry) (sid : String) (now : Nat) :
    get_ai_session (handle_resume_ai reg sid now) sid =
      (get_ai_session reg sid).map
        fun s => { s with status := "running", updated_at := now } := by
  unfold handle_resume_ai
  cases h : get_ai_session reg sid with
  | none => simp [h]
  | some s => simp [h, get_mapSession_self]

/-- Sample session record used to instantiate witnesses. -/
def sampleSession (status : String) : SessionData :=
  { id := "s1", project_id := "p1", user_id := "u1", status := status,
    progress := 0, prompt := "build an app", tech_stack := ["react"],
    context := none, created_at := 0, updated_at := 0 }

/-- Sample stored key used to instantiate witnesses. -/
def sampleKey : UserAPIKey :=
  { id := "k1", user_id := 1, provider := .openai, api_key := "sk-alpha",
    display_name := some "My Key", is_active := true, is_validated := true,
    last_validated_at := some 0, last_used_at := none, usage_count := 0,
    monthly_limit := none, current_month_usage := 0 }

/-- C10: for a session identifier not present in the session registry,
`get_ai_session` returns none and `update_ai_session` leaves the registry
unchanged (it creates no entry and raises nothing), so `stop_generation` and
`pause_generation` invoked with an unknown identifier complete without any
observable state change.  `hinv` is the reachable-state invariant that every
id in the background-task table is registered (tasks are registered by
`start_generation` right after `create_ai_session` and only ever removed). -/
theorem c10_unknown_session_noop (st : GenState) (sid : String) (now : Nat)
    (patch : SessionData → SessionData)
    (hmiss : get_ai_session st.sessions sid = none)
    (hinv : ∀ x ∈ st.active, (get_ai_session st.sessions x).isSome = true) :
    get_ai_session st.sessions sid = none ∧
    update_ai_session st.sessions sid patch now = st.sessions ∧
    stop_generation st sid now = st ∧
    pause_generation st.sessions sid now = st.sessions := by
  have hupd : ∀ q : SessionData → SessionData,
      update_ai_session st.sessions sid q now = st.sessions := by
    intro q
    unfold update_ai_session
    rw [hmiss]
    simp
  have hact : sid ∉ st.active := by
    intro hmem
    have := hinv sid hmem
    rw [hmiss] at this
    simp at this
  refine ⟨hmiss, hupd patch, ?_, hupd _⟩
  unfold stop_generation
  rw [hupd]
  cases st with
  | mk sessions active => simp [hact]

/-- Witness for C10 at a concrete state: one registered session `"s1"` with
a live task, probed with the unknown identifier `"zz"`. -/
theorem c10_unknown_session_noop_witness :
    get_ai_session (GenState.mk [("s1", sampleSession "running")] ["s1"]).sessions "zz"
      = none ∧
    update_ai_session (GenState.mk [("s1", sampleSession "running")] ["s1"]).sessions
      "zz" (fun s => { s with status := "stopped" }) 3
      = (GenState.mk [("s1", sampleSession "running")] ["s1"]).sessions ∧
    stop_generation (GenState.mk [("s1", sampleSession "running")] ["s1"]) "zz" 3
      = GenState.mk [("s1", sampleSession "running")] ["s1"] ∧
    pause_generation (GenState.mk [("s1", sampleSession "running")] ["s1"]).sessions
      "zz" 3
      = (GenState.mk [("s1", sampleSession "running")] ["s1"]).sessions :=
  c10_unknown_session_noop (GenState.mk [("s1", sampleSession "running")] ["s1"])
    "zz" 3 (fun s => { s with status := "stopped" }) (by decide) (by decide)

/-- C2 counterexample: a session in the terminal state `completed` is moved
back to `running` by the websocket resume handler, which writes the status
unconditionally — so `completed` is not terminal and resume does not act
only from `paused`, refuting the claim as stated. -/
theorem c2_counterexample :
    (sampleSession "completed").status = "completed" ∧
    (get_ai_session
        (handle_resume_ai [("s1", sampleSession "completed")] "s1" 7) "s1").map
      SessionData.status = some "running" := by
  constructor
  · rfl
  · rfl

/-- C2 amended: only the service-level `resume_generation` is guarded — it
rewrites a session to `running` exactly when the current status is `paused`
and otherwise leaves the registry untouched; the websocket stop, pause and
resume handlers and the service-level stop and pause write their target
status unconditionally on any existing session, so `completed`, `stopped`
and `error` are not terminal under those operations. -/
theorem c2_amended (st : GenState) (sid : String) (now : Nat) (s : SessionData)
    (h : get_ai_session st.sessions sid = some s) :
    (s.status ≠ "paused" → resume_generation st.sessions sid now = st.sessions) ∧
    (s.status = "paused" →
      (get_ai_session (resume_generation st.sessions sid now) sid).map
        SessionData.status = some "running") ∧
    (get_ai_session (handle_resume_ai st.sessions sid now) sid).map
      SessionData.status = some "running" ∧
    (get_ai_session (handle_stop_ai st.sessions sid now) sid).map
      SessionData.status = some "stopped" ∧
    (get_ai_session (handle_pause_ai st.sessions sid now) sid).map
      SessionData.status = some "paused" ∧
    (get_ai_session (pause_generation st.sessions sid now) sid).map
      SessionData.status = some "paused" ∧
    (get_ai_session (stop_generation st sid now).sessions sid).map
      SessionData.status = some "stopped" := by
  refine ⟨?_, ?_, ?_, ?_, ?_, ?_, ?_⟩
  · intro hs
    simp [resume_generation, h, hs]
  · intro hs
    simp only [resume_generation, h]
    rw [if_pos hs, get_update_self, h]
    rfl
  · rw [get_handle_resume_self, h]
    rfl
  · rw [get_handle_stop_self, h]
    rfl
  · rw [get_handle_pause_self, h]
    rfl
  · unfold pause_generation
    rw [get_update_self, h]
    rfl
  · unfold stop_generation
    rw [get_update_self, h]
    rfl

/-- Witness for C2 amended at concrete states: a completed session is left
alone by `resume_generation` but forced to `running`, `stopped` and `paused`
by the unguarded operations, and a paused session resumes to `running`. -/
theorem c2_amended_witness :
    resume_generation [("s1", sampleSession "completed")] "s1" 4
      = [("s1", sampleSession "completed")] ∧
    (get_ai_session
        (handle_resume_ai [("s1", sampleSession "completed")] "s1" 4) "s1").map
      SessionData.status = some "running" ∧
    (get_ai_session
        (resume_generation [("s2", sampleSession "paused")] "s2" 4) "s2").map
      SessionData.status = some "running" ∧
    (get_ai_session
        (stop_generation (GenState.mk [("s1", sampleSession "completed")] []) "s1" 4).sessions
        "s1").map SessionData.status = some "stopped" :=
  ⟨(c2_amended (GenState.mk [("s1", sampleSession "completed")] []) "s1" 4
      (sampleSession "completed") rfl).1 (by decide),
   (c2_amended (GenState.mk [("s1", sampleSession "completed")] []) "s1" 4
      (sampleSession "completed") rfl).2.2.1,
   (c2_amended (GenState.mk [("s2", sampleSession "paused")] []) "s2" 4
      (sampleSession "paused") rfl).2.1 rfl,
   (c2_amended (GenState.mk [("s1", sampleSession "completed")] []) "s1" 4
      (sampleSession "completed") rfl).2.2.2.2.2.2⟩

theorem network_error_message_ne_invalid (msg : String) :
    "Network error: " ++ msg ≠ "Invalid API key" := by
  obtain ⟨l⟩ := msg
  intro h
  have h2 : ("Network error: ").data ++ l = ("Invalid API key").data :=
    congrArg String.data h
  have h3 := congrArg List.length h2
  rw [List.length_append] at h3
  have e1 : ("Network error: ").data.length = 15 := by decide
  have e2 : ("Invalid API key").data.length = 15 := by decide
  rw [e1, e2] at h3
  have h4 : l = [] := List.length_eq_zero.mp (by omega)
  subst h4
  rw [List.append_nil] at h2
  have hne : ("Network error: ").data ≠ ("Invalid API key").data := by decide
  exact hne h2

/-- C5 counterexample: the Google probe classifier answers an HTTP 401 with
the generic API-error message, not `"Invalid API key"` (its invalid-key
branch fires on HTTP 400 instead), so the claim fails for the google
provider. -/
theorem c5_counterexample :
    validate_google_key (.http 401 "unauthorized")
      = ⟨false, some "API error: 401 - unauthorized"⟩ ∧
    (some "API error: 401 - unauthorized" : Option String)
      ≠ some "Invalid API key" := by
  constructor
  · rfl
  · decide

/-- C5 amended: every probe classifier yields `is_valid = false` on HTTP
401, with message `"Invalid API key"` for every provider except google,
whose classifier reserves `"Invalid API key"` for HTTP 400 and reports 401
as a generic API error; a network-level failure yields `is_valid = false`
with the distinct message `"Network error: ..."` in every classifier, and
that message can never collide with `"Invalid API key"`. -/
theorem c5_amended :
    (∀ (v : ValidatorKind) (body : String),
      (classify_probe v (.http 401 body)).is_valid = false) ∧
    (∀ (v : ValidatorKind) (body : String), v ≠ ValidatorKind.google →
      classify_probe v (.http 401 body) = ⟨false, some "Invalid API key"⟩) ∧
    (∀ body : String, classify_probe .google (.http 401 body)
      = ⟨false, some ("API error: 401 - " ++ body)⟩) ∧
    (∀ body : String, classify_probe .google (.http 400 body)
      = ⟨false, some "Invalid API key"⟩) ∧
    (∀ (v : ValidatorKind) (msg : String), classify_probe v (.network msg)
      = ⟨false, some ("Network error: " ++ msg)⟩) ∧
    (∀ msg : String, ("Network error: " ++ msg) ≠ "Invalid API key") := by
  refine ⟨?_, ?_, ?_, ?_, ?_, network_error_message_ne_invalid⟩
  · intro v body
    cases v <;> rfl
  · intro v body hv
    cases v
    · rfl
    · exact absurd rfl hv
    · rfl
    · rfl
    · rfl
    · rfl
    · rfl
    · rfl
  · intro body
    rfl
  · intro body
    rfl
  · intro v msg
    cases v <;> rfl

/-- Witness for C5 amended at concrete probes: a 401 against the openai
classifier, a 401 and a 400 against the google classifier, and a timeout. -/
theorem c5_amended_witness :
    classify_probe .openai (.http 401 "nope") = ⟨false, some "Invalid API key"⟩ ∧
    classify_probe .google (.http 401 "nope")
      = ⟨false, some ("API error: 401 - " ++ "nope")⟩ ∧
    classify_probe .google (.http 400 "bad") = ⟨false, some "Invalid API key"⟩ ∧
    classify_probe .cohere (.network "timeout")
      = ⟨false, some ("Network error: " ++ "timeout")⟩ ∧
    ("Network error: " ++ "timeout") ≠ "Invalid API key" :=
  ⟨c5_amended.2.1 .openai "nope" (by decide), c5_amended.2.2.1 "nope",
   c5_amended.2.2.2.1 "bad", c5_amended.2.2.2.2.1 .cohere "timeout",
   c5_amended.2.2.2.2.2 "timeout"⟩

/-- Key with a zero monthly limit, used to refute C7 as stated. -/
def c7_key : UserAPIKey :=
  { sampleKey with monthly_limit := some 0, current_month_usage := 5 }

/-- C7 counterexample: `monthly_limit = 0` is a set limit and
`current_month_usage = 5` meets it, yet the selection still returns the key,
because the Python guard `if key.monthly_limit and ...` treats a zero limit
as falsy, exactly like an absent one. -/
theorem c7_counterexample :
    c7_key.is_active = true ∧ c7_key.is_validated = true ∧
    c7_key.monthly_limit = some 0 ∧ 0 ≤ c7_key.current_month_usage ∧
    get_available_api_key [c7_key] 1 .openai = some c7_key := by
  refine ⟨rfl, rfl, rfl, by decide, rfl⟩

/-- C7 amended: the selection returns only keys that pass the
active-and-validated filter, and returns none whenever the first such key
has a nonzero monthly limit met by its current monthly usage (a zero limit
is treated like no limit at all, and only the first matching row is ever
considered). -/
theorem c7_amended (db : List UserAPIKey) (uid : Nat) (p : Provider) :
    (∀ k, get_available_api_key db uid p = some k →
      k.is_active = true ∧ k.is_validated = true ∧
        monthly_limit_exceeded k = false) ∧
    (∀ k n, db.find? (availableKeyFilter uid p) = some k →
      k.monthly_limit = some n → 0 < n → n ≤ k.current_month_usage →
      get_available_api_key db uid p = none) := by
  constructor
  · intro k h
    unfold get_available_api_key at h
    cases hf : db.find? (availableKeyFilter uid p) with
    | none => simp [hf] at h
    | some k0 =>
        simp only [hf] at h
        by_cases hex : monthly_limit_exceeded k0 = true
        · simp [hex] at h
        · rw [if_neg hex] at h
          have hk : k0 = k := by injection h
          subst hk
          have hp := List.find?_some hf
          unfold availableKeyFilter at hp
          simp only [Bool.and_eq_true, decide_eq_true_eq] at hp
          exact ⟨hp.1.2, hp.2, by simpa using hex⟩
  · intro k n hf hlim hpos hle
    unfold get_available_api_key
    simp only [hf]
    have hex : monthly_limit_exceeded k = true := by
      unfold monthly_limit_exceeded
      rw [hlim]
      simp [hpos, hle]
    rw [if_pos hex]

/-- Witness for C7 amended: a single exhausted key with limit 3 and usage 3
is selected by the first-match query but rejected by the limit guard. -/
theorem c7_amended_witness :
    get_available_api_key
      [{ sampleKey with monthly_limit := some 3, current_month_usage := 3 }] 1 .openai
      = none :=
  (c7_amended
    [{ sampleKey with monthly_limit := some 3, current_month_usage := 3 }] 1 .openai).2
    { sampleKey with monthly_limit := some 3, current_month_usage := 3 } 3
    (by decide) rfl (by decide) (by decide)

/-- C8: a user with zero available (active, validated, non-exhausted) keys
receives the distinguished no-credentials error from
`generate_code_suggestion` (the shared skeleton of the five usage-recording
tasks) and from `generate_text`, immediately: no provider is attempted, no
usage is recorded, and the message differs from both aggregate
all-providers-failed messages. -/
theorem c8_no_credentials (db : List UserAPIKey) (uid : Nat)
    (call : Provider → UserAPIKey → Except String String)
    (h : ∀ p, get_available_api_key db uid p = none) :
    generate_code_suggestion db uid call
      = ⟨.error "No API keys available for AI services", [], []⟩ ∧
    generate_text db uid call
      = ⟨.error "No API keys available for AI services", [], []⟩ ∧
    ("No API keys available for AI services" : String)
      ≠ "All available providers failed" ∧
    ("No API keys available for AI services" : String)
      ≠ "All available providers failed for text generation" := by
  have he : get_available_providers db uid = [] := by
    simp [get_available_providers, providerEnumList, h]
  refine ⟨?_, ?_, by decide, by decide⟩
  · simp [generate_code_suggestion, he]
  · simp [generate_text, he]

/-- Witness for C8 on the empty key store. -/
theorem c8_no_credentials_witness :
    generate_code_suggestion [] 7 (fun _ _ => .ok "x")
      = ⟨.error "No API keys available for AI services", [], []⟩ ∧
    generate_text [] 7 (fun _ _ => .ok "x")
      = ⟨.error "No API keys available for AI services", [], []⟩ ∧
    ("No API keys available for AI services" : String)
      ≠ "All available providers failed" ∧
    ("No API keys available for AI services" : String)
      ≠ "All available providers failed for text generation" :=
  c8_no_credentials [] 7 (fun _ _ => .ok "x") (fun _ => rfl)

/-- C1 counterexample: `generate_text` returns the first successful
provider result but records usage for no key at all (its success branch
never calls `update_key_usage`), refuting the claim that every AI-service
task records usage against the succeeding key. -/
theorem c1_counterexample :
    (generate_text [sampleKey] 1 (fun _ _ => .ok "hello")).result = .ok "hello" ∧
    (generate_text [sampleKey] 1 (fun _ _ => .ok "hello")).attempted
      = [Provider.openai] ∧
    (generate_text [sampleKey] 1 (fun _ _ => .ok "hello")).usage_recorded = [] := by
  refine ⟨rfl, rfl, rfl⟩

/-- C1 amended: in every task loop, when all earlier candidates raise and
candidate (p, k) succeeds, the loop returns that result immediately — later
candidates are neither attempted nor able to influence the outcome, and each
earlier exception merely advanced the loop.  The five suggest, analyze,
complete, refactor and explain tasks record usage for exactly the key `k`
and no other; `generate_text` records usage for no key. -/
theorem c1_amended (call : Provider → UserAPIKey → Except String String)
    (fail_msg : String) (pre post : List (Provider × UserAPIKey))
    (p : Provider) (k : UserAPIKey) (r : String)
    (hpre : ∀ x ∈ pre, ∃ e, call x.1 x.2 = .error e)
    (hk : call p k = .ok r) :
    provider_fallback_loop call fail_msg (pre ++ (p, k) :: post)
      = ⟨.ok r, pre.map Prod.fst ++ [p], [k.id]⟩ ∧
    generate_text_loop call (pre ++ (p, k) :: post)
      = ⟨.ok r, pre.map Prod.fst ++ [p], []⟩ := by
  induction pre with
  | nil =>
      constructor
      · simp [provider_fallback_loop, hk]
      · simp [generate_text_loop, hk]
  | cons x rest ih =>
      obtain ⟨q, kq⟩ := x
      obtain ⟨e, he⟩ := hpre (q, kq) (List.mem_cons_self _ _)
      have ih2 := ih fun y hy => hpre y (List.mem_cons_of_mem _ hy)
      constructor
      · simp only [List.cons_append, provider_fallback_loop, he]
        simp [ih2.1]
      · simp only [List.cons_append, generate_text_loop, he]
        simp [ih2.2]

/-- Witness for C1 amended: provider P1 (openai) raises, provider P2
(google) succeeds; the fallback loop returns the P2 result with usage
recorded exactly against the P2 key, and the text loop returns the same
result with no usage recorded. -/
theorem c1_amended_witness :
    provider_fallback_loop
      (fun p _ => if p = Provider.openai then .error "boom" else .ok "done")
      "All available providers failed"
      [(Provider.openai, sampleKey),
       (Provider.google, { sampleKey with id := "k2", provider := .google })]
      = ⟨.ok "done", [Provider.openai, Provider.google], ["k2"]⟩ ∧
    generate_text_loop
      (fun p _ => if p = Provider.openai then .error "boom" else .ok "done")
      [(Provider.openai, sampleKey),
       (Provider.google, { sampleKey with id := "k2", provider := .google })]
      = ⟨.ok "done", [Provider.openai, Provider.google], []⟩ :=
  c1_amended
    (fun p _ => if p = Provider.openai then .error "boom" else .ok "done")
    "All available providers failed"
    [(Provider.openai, sampleKey)] []
    Provider.google { sampleKey with id := "k2", provider := .google } "done"
    (by
      intro x hx
      simp only [List.mem_singleton] at hx
      subst hx
      exact ⟨"boom", rfl⟩)
    rfl

/-- Record created by the insert branch of `add_api_key` for a validated key
with resolved display name `dn`. -/
def freshKeyRecord (uid : Nat) (p : Provider) (raw : String) (dn : String)
    (t : Nat) (kid : String) : UserAPIKey :=
  { id := kid, user_id := uid, provider := p, api_key := raw,
    display_name := some dn, is_active := true, is_validated := true,
    last_validated_at := some t, last_used_at := none, usage_count := 0,
    monthly_limit := none, current_month_usage := 0 }

/-- Store after adding an openai key with no display name to an empty store. -/
def c6_db1 : List UserAPIKey :=
  (add_api_key [] 1 .openai "sk-one" none ⟨true, none⟩ 10 "id1").2

/-- Store after adding a second openai key with no display name and a new
secret on top of `c6_db1`. -/
def c6_db2 : List UserAPIKey :=
  (add_api_key c6_db1 1 .openai "sk-two" none ⟨true, none⟩ 20 "id2").2

/-- C6 counterexample: two `add_api_key` calls with the same
(user, provider, displayName) tuple — displayName omitted both times — and
both passing validation leave TWO stored records, not one, because the first
call stores the generated default name `"openai Key"` while the second call
looks up rows whose `display_name` is NULL and finds none.  The first
record keeps the first secret and validation stamp, so nothing about the
stored state reflects only the second call.  (Against the live schema of
models.py, whose `(user_id, provider)` unique constraint the duplicate
insert violates, the second call would instead roll back and fail — either
way the claimed upsert does not happen.) -/
theorem c6_counterexample :
    c6_db1.length = 1 ∧
    c6_db2.length = 2 ∧
    c6_db2.map UserAPIKey.api_key = ["sk-one", "sk-two"] ∧
    c6_db2.map UserAPIKey.last_validated_at = [some 10, some 20] ∧
    c6_db2.map UserAPIKey.display_name
      = [some "openai Key", some "openai Key"] := by
  refine ⟨rfl, rfl, rfl, rfl, rfl⟩

/-- C6 amended: with an explicitly supplied non-empty display name, addKey
is the claimed upsert keyed by (user, provider, displayName): when no row
matches the tuple, a fresh row is appended with `is_validated = true` and
`last_validated_at` set to the call instant; calling again with the same
tuple and a new secret overwrites that row in place, so exactly one row for
the tuple remains and its secret and validation stamp are those of the
second call.  With the display name omitted or empty, the stored row
receives a generated default name, later lookups on the tuple miss it, and
a duplicate row is inserted instead (see the counterexample). -/
theorem c6_amended (db0 : List UserAPIKey) (uid : Nat) (p : Provider)
    (raw1 raw2 s : String) (v1 v2 : ValidationResult) (t1 t2 : Nat)
    (id1 id2 : String)
    (hv1 : v1.is_valid = true) (hv2 : v2.is_valid = true) (hs : s ≠ "")
    (hmiss : db0.find? (sameTupleFilter uid p (some s)) = none)
    (hfresh : ∀ k ∈ db0, k.id ≠ id1) :
    (add_api_key db0 uid p raw1 (some s) v1 t1 id1).2
      = db0 ++ [freshKeyRecord uid p raw1 s t1 id1] ∧
    (add_api_key (add_api_key db0 uid p raw1 (some s) v1 t1 id1).2
        uid p raw2 (some s) v2 t2 id2).2
      = db0 ++ [{ freshKeyRecord uid p raw1 s t1 id1 with
                    api_key := raw2, is_validated := true,
                    last_validated_at := some t2 }] ∧
    ((add_api_key (add_api_key db0 uid p raw1 (some s) v1 t1 id1).2
        uid p raw2 (some s) v2 t2 id2).2.filter
      (sameTupleFilter uid p (some s))).length = 1 := by
  have h1 : (add_api_key db0 uid p raw1 (some s) v1 t1 id1).2
      = db0 ++ [freshKeyRecord uid p raw1 s t1 id1] := by
    simp [add_api_key, hv1, hmiss, hs, freshKeyRecord]
  have hfind : (db0 ++ [freshKeyRecord uid p raw1 s t1 id1]).find?
      (sameTupleFilter uid p (some s)) = some (freshKeyRecord uid p raw1 s t1 id1) := by
    rw [List.find?_append, hmiss]
    simp [sameTupleFilter, freshKeyRecord]
  have hmap : db0.map (fun k =>
      if k.id = (freshKeyRecord uid p raw1 s t1 id1).id then
        { k with api_key := raw2, is_validated := true,
                 last_validated_at := some t2 }
      else k) = db0 := by
    conv_rhs => rw [← List.map_id db0]
    apply List.map_congr_left
    intro a ha
    have : a.id ≠ id1 := hfresh a ha
    simp [freshKeyRecord, this]
  have h2 : (add_api_key (add_api_key db0 uid p raw1 (some s) v1 t1 id1).2
      uid p raw2 (some s) v2 t2 id2).2
      = db0 ++ [{ freshKeyRecord uid p raw1 s t1 id1 with
                    api_key := raw2, is_validated := true,
                    last_validated_at := some t2 }] := by
    rw [h1]
    simp only [add_api_key, hv2, hfind]
    simp only [Bool.true_eq_false, if_false, List.map_append]
    rw [hmap]
    simp [freshKeyRecord]
  have hnil : db0.filter (sameTupleFilter uid p (some s)) = [] := by
    rw [List.filter_eq_nil_iff]
    intro a ha
    have := List.find?_eq_none.mp hmiss a ha
    simpa using this
  refine ⟨h1, h2, ?_⟩
  rw [h2, List.filter_append, hnil]
  simp [sameTupleFilter, freshKeyRecord]

/-- Witness for C6 amended: two adds of an openai key named "Main" on the
empty store; the single surviving record carries the second secret and the
second validation stamp. -/
theorem c6_amended_witness :
    (add_api_key [] 1 .openai "sk-one" (some "Main") ⟨true, none⟩ 10 "id1").2
      = [freshKeyRecord 1 .openai "sk-one" "Main" 10 "id1"] ∧
    (add_api_key (add_api_key [] 1 .openai "sk-one" (some "Main") ⟨true, none⟩ 10 "id1").2
        1 .openai "sk-two" (some "Main") ⟨true, none⟩ 20 "id2").2
      = [{ freshKeyRecord 1 .openai "sk-one" "Main" 10 "id1" with
             api_key := "sk-two", is_validated := true,
             last_validated_at := some 20 }] ∧
    ((add_api_key (add_api_key [] 1 .openai "sk-one" (some "Main") ⟨true, none⟩ 10 "id1").2
        1 .openai "sk-two" (some "Main") ⟨true, none⟩ 20 "id2").2.filter
      (sameTupleFilter 1 .openai (some "Main"))).length = 1 :=
  c6_amended [] 1 .openai "sk-one" "sk-two" "Main" ⟨true, none⟩ ⟨true, none⟩
    10 20 "id1" "id2" rfl rfl (by decide) rfl (by intro k hk; simp at hk)

/-- Pipeline environment of the C3 counterexample: the project exists, the
planning call returns text that is not valid JSON, so `json.loads` fails. -/
def c3_env : PipelineEnv :=
  { project_exists := true,
    plan_response := .ok "not json",
    parse_json := fun _ => none,
    scaffold := .ok [],
    gen := fun _ => none,
    ext := fun _ r => r,
    now := 9 }

/-- C3 counterexample: on a malformed JSON manifest response the background
task publishes the parse-failure error event and exits, but never writes the
session status — the registry still says `running`, not the terminal
`error`, so a polling caller cannot observe the failure. -/
theorem c3_counterexample :
    (get_ai_session (generate_project c3_env "s1"
        [("s1", sampleSession "running")]).reg "s1").map SessionData.status
      = some "running" ∧
    (generate_project c3_env "s1" [("s1", sampleSession "running")]).events
      = [mkEvent "progress"
           "Analyzing requirements and planning project structure..." 10,
         mkEvent "error" "Failed to parse project structure" 0] := by
  refine ⟨rfl, rfl⟩

/-- C3 amended: a pipeline failure raised as an exception (a failing
planning call, or a failing scaffold step) is caught by the outer handler,
which does set the session status to `error` before the task exits; but the
empty-response and malformed-JSON manifest paths return early after
publishing an error event, leaving the session status at `running`, so only
exception-path failures are observable by polling. -/
theorem c3_amended (env : PipelineEnv) (sid : String) (reg : Registry)
    (s : SessionData)
    (hx : env.project_exists = true)
    (h : get_ai_session reg sid = some s) :
    (∀ e, env.plan_response = .error e →
      (get_ai_session (generate_project env sid reg).reg sid).map
        SessionData.status = some "error") ∧
    (env.plan_response = .ok "" →
      (get_ai_session (generate_project env sid reg).reg sid).map
        SessionData.status = some "running" ∧
      (generate_project env sid reg).events.getLast?
        = some (mkEvent "error" "Failed to generate project structure" 0)) ∧
    (∀ r, env.plan_response = .ok r → r ≠ "" → env.parse_json r = none →
      (get_ai_session (generate_project env sid reg).reg sid).map
        SessionData.status = some "running" ∧
      (generate_project env sid reg).events.getLast?
        = some (mkEvent "error" "Failed to parse project structure" 0)) ∧
    (∀ r sd e, env.plan_response = .ok r → r ≠ "" → env.parse_json r = some sd →
      env.scaffold = .error e →
      (get_ai_session (generate_project env sid reg).reg sid).map
        SessionData.status = some "error") := by
  refine ⟨?_, ?_, ?_, ?_⟩
  · intro e he
    simp only [generate_project, hx, Bool.true_eq_false, if_false, he]
    rw [get_update_self, get_update_self, h]
    rfl
  · intro he
    simp only [generate_project, hx, Bool.true_eq_false, if_false, he, reduceIte]
    constructor
    · rw [get_update_self, h]
      rfl
    · rfl
  · intro r he hr hp
    simp only [generate_project, hx, Bool.true_eq_false, if_false, he, if_neg hr, hp]
    constructor
    · rw [get_update_self, h]
      rfl
    · rfl
  · intro r sd e he hr hp hsc
    simp only [generate_project, hx, Bool.true_eq_false, if_false, he, if_neg hr,
      hp, hsc]
    rw [get_update_self, get_update_self, get_update_self, h]
    rfl

/-- Witness for C3 amended on a concrete registry: a raised planning
exception yields the `error` status, an empty planning response and a
malformed response both leave the status at `running`. -/
theorem c3_amended_witness :
    (get_ai_session (generate_project { c3_env with plan_response := .error "boom" }
        "s1" [("s1", sampleSession "running")]).reg "s1").map SessionData.status
      = some "error" ∧
    (get_ai_session (generate_project { c3_env with plan_response := .ok "" }
        "s1" [("s1", sampleSession "running")]).reg "s1").map SessionData.status
      = some "running" ∧
    (get_ai_session (generate_project c3_env
        "s1" [("s1", sampleSession "running")]).reg "s1").map SessionData.status
      = some "running" :=
  ⟨(c3_amended { c3_env with plan_response := .error "boom" } "s1"
      [("s1", sampleSession "running")] (sampleSession "running") rfl rfl).1
      "boom" rfl,
   ((c3_amended { c3_env with plan_response := .ok "" } "s1"
      [("s1", sampleSession "running")] (sampleSession "running") rfl rfl).2.1
      rfl).1,
   ((c3_amended c3_env "s1"
      [("s1", sampleSession "running")] (sampleSession "running") rfl rfl).2.2.1
      "not json" rfl (by decide) rfl).1⟩

theorem coop_loop_stop (gen : FileInfo → Option String) (sid : String) (now : Nat)
    (ext : Nat → Registry → Registry) (k : Nat)
    (hext_lt : ∀ i, i < k → ext i = fun r => r)
    (hext_k : ext k = fun r => handle_stop_ai r sid now)
    (hgen : ∀ f, (gen f).isSome = true) :
    ∀ (d : Nat) (files : List FileInfo) (completed total step : Nat)
      (reg : Registry) (s : SessionData),
      step + d = k → d < files.length →
      get_ai_session reg sid = some s → s.status = "running" →
      (run_file_loop ext gen sid files completed total step reg).files.length = d ∧
      (run_file_loop ext gen sid files completed total step reg).halted = true ∧
      (get_ai_session
          (run_file_loop ext gen sid files completed total step reg).reg sid).map
        SessionData.status = some "stopped" ∧
      ∃ pre,
        (run_file_loop ext gen sid files completed total step reg).events
          = pre ++ [mkEvent "stopped" "Generation stopped by user" 0] ∧
        pre.length = d ∧ ∀ e ∈ pre, e.etype = "file_created" := by
  intro d
  induction d with
  | zero =>
      intro files completed total step reg s hstep hlen hreg hstat
      cases files with
      | nil => simp at hlen
      | cons f rest =>
          have hstepk : step = k := by omega
          subst hstepk
          have hget : get_ai_session (ext step reg) sid
              = some { s with status := "stopped", updated_at := now } := by
            rw [hext_k, get_handle_stop_self, hreg]
            rfl
          have hrun : run_file_loop ext gen sid (f :: rest) completed total step reg
              = ⟨ext step reg,
                 [mkEvent "stopped" "Generation stopped by user" 0], [], true⟩ := by
            simp only [run_file_loop, hget]
            rfl
          rw [hrun]
          refine ⟨rfl, rfl, ?_, [], rfl, rfl, by intro e he; simp at he⟩
          rw [hget]
          rfl
  | succ d ih =>
      intro files completed total step reg s hstep hlen hreg hstat
      cases files with
      | nil => simp at hlen
      | cons f rest =>
          have hlt : step < k := by omega
          have hid : ext step = fun r => r := hext_lt step hlt
          obtain ⟨c, hc⟩ := Option.isSome_iff_exists.mp (hgen f)
          obtain ⟨ih1, ih2, ih3, pre, ih4, ih5, ih6⟩ :=
            ih rest (completed + 1) total (step + 1) reg s
              (by omega) (by simpa using hlen) hreg hstat
          have hhalt : (match get_ai_session reg sid with
              | none => true
              | some s0 => decide (s0.status ≠ "running")) = false := by
            rw [hreg]
            simp [hstat]
          have hrun : run_file_loop ext gen sid (f :: rest) completed total step reg
              = ⟨(run_file_loop ext gen sid rest (completed + 1) total (step + 1) reg).reg,
                 { mkEvent "file_created" ("Created " ++ f.path)
                     (30 + (completed + 1) * 60 / total) with
                     current_file := some f.path, total_files := some total,
                     completed_files := some (completed + 1) } ::
                   (run_file_loop ext gen sid rest (completed + 1) total
                     (step + 1) reg).events,
                 f.path ::
                   (run_file_loop ext gen sid rest (completed + 1) total
                     (step + 1) reg).files,
                 (run_file_loop ext gen sid rest (completed + 1) total
                   (step + 1) reg).halted⟩ := by
            simp only [run_file_loop, hid, hhalt, Bool.false_eq_true, if_false, hc]
          rw [hrun]
          refine ⟨by simp [ih1], ih2, ih3, ?_⟩
          refine ⟨{ mkEvent "file_created" ("Created " ++ f.path)
              (30 + (completed + 1) * 60 / total) with
                current_file := some f.path, total_files := some total,
                completed_files := some (completed + 1) } :: pre, ?_, ?_, ?_⟩
          · simp [ih4]
          · simp [ih5]
          · intro e he
            rcases List.mem_cons.mp he with h1 | h1
            · subst h1
              rfl
            · exact ih6 e h1

theorem cancel_loop_stop (gen : FileInfo → Option String) (sid : String) (now : Nat)
    (k : Nat) (hgen : ∀ f, (gen f).isSome = true) :
    ∀ (d : Nat) (files : List FileInfo) (completed total step : Nat)
      (reg : Registry) (s : SessionData),
      step + d = k → d < files.length →
      get_ai_session reg sid = some s → s.status = "running" →
      (run_file_loop_cancel (fun _ r => r) gen sid k now files completed total
          step reg).files.length = d ∧
      (run_file_loop_cancel (fun _ r => r) gen sid k now files completed total
          step reg).halted = true ∧
      (get_ai_session (run_file_loop_cancel (fun _ r => r) gen sid k now files
          completed total step reg).reg sid).map SessionData.status
        = some "stopped" ∧
      (run_file_loop_cancel (fun _ r => r) gen sid k now files completed total
          step reg).events.length = d ∧
      ∀ e ∈ (run_file_loop_cancel (fun _ r => r) gen sid k now files completed
          total step reg).events, e.etype = "file_created" := by
  intro d
  induction d with
  | zero =>
      intro files completed total step reg s hstep hlen hreg hstat
      cases files with
      | nil => simp at hlen
      | cons f rest =>
          have hstepk : step = k := by omega
          subst hstepk
          have hhalt : (match get_ai_session reg sid with
              | none => true
              | some s0 => decide (s0.status ≠ "running")) = false := by
            rw [hreg]
            simp [hstat]
          have hrun : run_file_loop_cancel (fun _ r => r) gen sid step now
              (f :: rest) completed total step reg
              = ⟨update_ai_session reg sid
                   (fun t => { t with status := "stopped" }) now, [], [], true⟩ := by
            simp only [run_file_loop_cancel, hhalt, Bool.false_eq_true, if_false,
              reduceIte]
          rw [hrun]
          refine ⟨rfl, rfl, ?_, rfl, by intro e he; simp at he⟩
          rw [get_update_self, hreg]
          rfl
  | succ d ih =>
      intro files completed total step reg s hstep hlen hreg hstat
      cases files with
      | nil => simp at hlen
      | cons f rest =>
          obtain ⟨c, hc⟩ := Option.isSome_iff_exists.mp (hgen f)
          obtain ⟨ih1, ih2, ih3, ih4, ih5⟩ :=
            ih rest (completed + 1) total (step + 1) reg s
              (by omega) (by simpa using hlen) hreg hstat
          have hhalt : (match get_ai_session reg sid with
              | none => true
              | some s0 => decide (s0.status ≠ "running")) = false := by
            rw [hreg]
            simp [hstat]
          have hne : step ≠ k := by omega
          have hrun : run_file_loop_cancel (fun _ r => r) gen sid k now
              (f :: rest) completed total step reg
              = ⟨(run_file_loop_cancel (fun _ r => r) gen sid k now rest
                    (completed + 1) total (step + 1) reg).reg,
                 { mkEvent "file_created" ("Created " ++ f.path)
                     (30 + (completed + 1) * 60 / total) with
                     current_file := some f.path, total_files := some total,
                     completed_files := some (completed + 1) } ::
                   (run_file_loop_cancel (fun _ r => r) gen sid k now rest
                     (completed + 1) total (step + 1) reg).events,
                 f.path ::
                   (run_file_loop_cancel (fun _ r => r) gen sid k now rest
                     (completed + 1) total (step + 1) reg).files,
                 (run_file_loop_cancel (fun _ r => r) gen sid k now rest
                   (completed + 1) total (step + 1) reg).halted⟩ := by
            simp only [run_file_loop_cancel, hhalt, Bool.false_eq_true, if_false,
              if_neg hne, hc]
          rw [hrun]
          refine ⟨by simp [ih1], ih2, ih3, by simp [ih4], ?_⟩
          intro e he
          rcases List.mem_cons.mp he with h1 | h1
          · subst h1
            rfl
          · exact ih5 e h1

/-- C4 amended: a stop delivered through the websocket control channel is
cooperative exactly as claimed — it only flips the session status, the
step-3 loop observes the flip at the next file boundary, and a stop arriving
at the boundary after k of n files yields exactly k persisted files, a
`stopped` event and session state `stopped`, with no (k+1)-th file.  A stop
delivered through `AIGenerationService.stop_generation` (the REST endpoint
path) additionally cancels the background task: the session state still
becomes `stopped` and no further file is persisted, but the in-flight
provider call is aborted instead of being allowed to finish, and the loop
emits no `stopped` event on that path. -/
theorem c4_amended (gen : FileInfo → Option String) (sid : String) (now k : Nat)
    (files : List FileInfo) (reg : Registry) (s : SessionData)
    (ext : Nat → Registry → Registry)
    (hgen : ∀ f, (gen f).isSome = true) (hk : k < files.length)
    (hext_lt : ∀ i, i < k → ext i = fun r => r)
    (hext_k : ext k = fun r => handle_stop_ai r sid now)
    (hreg : get_ai_session reg sid = some s) (hstat : s.status = "running") :
    ((run_file_loop ext gen sid files 0 files.length 0 reg).files.length = k ∧
     (run_file_loop ext gen sid files 0 files.length 0 reg).halted = true ∧
     (get_ai_session
         (run_file_loop ext gen sid files 0 files.length 0 reg).reg sid).map
       SessionData.status = some "stopped" ∧
     ∃ pre,
       (run_file_loop ext gen sid files 0 files.length 0 reg).events
         = pre ++ [mkEvent "stopped" "Generation stopped by user" 0] ∧
       pre.length = k ∧ ∀ e ∈ pre, e.etype = "file_created") ∧
    ((run_file_loop_cancel (fun _ r => r) gen sid k now files 0 files.length
        0 reg).files.length = k ∧
     (run_file_loop_cancel (fun _ r => r) gen sid k now files 0 files.length
        0 reg).halted = true ∧
     (get_ai_session (run_file_loop_cancel (fun _ r => r) gen sid k now files 0
         files.length 0 reg).reg sid).map SessionData.status = some "stopped" ∧
     (run_file_loop_cancel (fun _ r => r) gen sid k now files 0 files.length
        0 reg).events.length = k ∧
     ∀ e ∈ (run_file_loop_cancel (fun _ r => r) gen sid k now files 0
        files.length 0 reg).events, e.etype = "file_created") :=
  ⟨coop_loop_stop gen sid now ext k hext_lt hext_k hgen k files 0 files.length 0
     reg s (by omega) hk hreg hstat,
   cancel_loop_stop gen sid now k hgen k files 0 files.length 0 reg s
     (by omega) hk hreg hstat⟩

/-- Ten-entry manifest used by the C4 counterexample and witness. -/
def c4_files : List FileInfo :=
  (List.range 10).map fun i =>
    { path := "f" ++ toString i, ftype := "component", description := "d" }

/-- Result of the step-3 loop on a 10-file manifest when the service-level
stop (task cancellation) arrives during the provider call of the fourth
file, after 3 files have been persisted. -/
def c4_cancel_run : LoopResult :=
  run_file_loop_cancel (fun _ r => r) (fun _ => some "content") "s1" 3 9
    c4_files 0 10 0 [("s1", sampleSession "running")]

/-- C4 counterexample: when the stop arrives through
`AIGenerationService.stop_generation` after 3 of 10 files, the session ends
`stopped` with exactly 3 persisted files — but the claim as stated also
requires the in-flight provider call to finish and a `stopped` event to be
published, and on this path the cancelled task emits no `stopped` event at
all (its 3 events are all `file_created`). -/
theorem c4_counterexample :
    c4_cancel_run.files = ["f0", "f1", "f2"] ∧
    c4_cancel_run.events.length = 3 ∧
    c4_cancel_run.events.filter (fun e => e.etype == "stopped") = [] ∧
    c4_cancel_run.events.filter (fun e => e.etype == "file_created")
      = c4_cancel_run.events ∧
    (get_ai_session c4_cancel_run.reg "s1").map SessionData.status
      = some "stopped" := by
  refine ⟨rfl, rfl, rfl, rfl, rfl⟩

/-- Witness for C4 amended on a 10-file manifest with the stop at the
boundary after 3 files: the cooperative path yields 3 files, halts, and ends
with state stopped; the cancel path also yields 3 files and state stopped
but emits exactly its 3 file events. -/
theorem c4_amended_witness :
    (run_file_loop
        (fun i r => if i = 3 then handle_stop_ai r "s1" 9 else r)
        (fun _ => some "content") "s1" c4_files 0 c4_files.length 0
        [("s1", sampleSession "running")]).files.length = 3 ∧
    (run_file_loop
        (fun i r => if i = 3 then handle_stop_ai r "s1" 9 else r)
        (fun _ => some "content") "s1" c4_files 0 c4_files.length 0
        [("s1", sampleSession "running")]).halted = true ∧
    (get_ai_session
        (run_file_loop
          (fun i r => if i = 3 then handle_stop_ai r "s1" 9 else r)
          (fun _ => some "content") "s1" c4_files 0 c4_files.length 0
          [("s1", sampleSession "running")]).reg "s1").map SessionData.status
      = some "stopped" ∧
    (run_file_loop_cancel (fun _ r => r) (fun _ => some "content") "s1" 3 9
        c4_files 0 c4_files.length 0
        [("s1", sampleSession "running")]).files.length = 3 ∧
    (run_file_loop_cancel (fun _ r => r) (fun _ => some "content") "s1" 3 9
        c4_files 0 c4_files.length 0
        [("s1", sampleSession "running")]).halted = true ∧
    (get_ai_session
        (run_file_loop_cancel (fun _ r => r) (fun _ => some "content") "s1" 3 9
          c4_files 0 c4_files.length 0
          [("s1", sampleSession "running")]).reg "s1").map SessionData.status
      = some "stopped" ∧
    (run_file_loop_cancel (fun _ r => r) (fun _ => some "content") "s1" 3 9
        c4_files 0 c4_files.length 0
        [("s1", sampleSession "running")]).events.length = 3 := by
  have H := c4_amended (fun _ => some "content") "s1" 9 3 c4_files
    [("s1", sampleSession "running")] (sampleSession "running")
    (fun i r => if i = 3 then handle_stop_ai r "s1" 9 else r)
    (fun _ => rfl) (by decide)
    (by
      intro i hi
      have hne : i ≠ 3 := by omega
      simp [hne])
    (by simp) rfl rfl
  exact ⟨H.1.1, H.1.2.1, H.1.2.2.1, H.2.1, H.2.2.1, H.2.2.2.1, H.2.2.2.2.1⟩

theorem prog_le_90 (c t : Nat) (h : c ≤ t) : 30 + c * 60 / t ≤ 90 := by
  rcases Nat.eq_zero_or_pos t with ht | ht
  · subst ht
    have hc : c = 0 := Nat.le_zero.mp h
    subst hc
    simp
  · have h1 : c * 60 / t ≤ 60 := by
      calc c * 60 / t ≤ t * 60 / t :=
            Nat.div_le_div_right (Nat.mul_le_mul_right 60 h)
        _ = 60 := by rw [Nat.mul_div_cancel_left 60 ht]
    omega

theorem prog_mono (a b t : Nat) (h : a ≤ b) :
    30 + a * 60 / t ≤ 30 + b * 60 / t := by
  have h1 : a * 60 / t ≤ b * 60 / t :=
    Nat.div_le_div_right (Nat.mul_le_mul_right 60 h)
  omega

theorem loop_no_halt (gen : FileInfo → Option String) (sid : String)
    (reg : Registry) (s : SessionData)
    (hreg : get_ai_session reg sid = some s) (hstat : s.status = "running") :
    ∀ (files : List FileInfo) (completed total step : Nat),
      (run_file_loop (fun _ r => r) gen sid files completed total step reg).halted
        = false ∧
      (run_file_loop (fun _ r => r) gen sid files completed total step reg).reg
        = reg ∧
      ∀ e ∈ (run_file_loop (fun _ r => r) gen sid files completed total step
          reg).events, e.etype = "file_created" := by
  intro files
  induction files with
  | nil =>
      intro completed total step
      refine ⟨rfl, rfl, ?_⟩
      intro e he
      simp [run_file_loop] at he
  | cons f rest ih =>
      intro completed total step
      have hhalt : (match get_ai_session reg sid with
          | none => true
          | some s0 => decide (s0.status ≠ "running")) = false := by
        rw [hreg]
        simp [hstat]
      cases hgf : gen f with
      | none =>
          have hrun : run_file_loop (fun _ r => r) gen sid (f :: rest) completed
              total step reg
              = run_file_loop (fun _ r => r) gen sid rest completed total
                  (step + 1) reg := by
            simp only [run_file_loop, hhalt, Bool.false_eq_true, if_false, hgf]
          rw [hrun]
          exact ih completed total (step + 1)
      | some c =>
          have hrun : run_file_loop (fun _ r => r) gen sid (f :: rest) completed
              total step reg
              = ⟨(run_file_loop (fun _ r => r) gen sid rest (completed + 1) total
                    (step + 1) reg).reg,
                 { mkEvent "file_created" ("Created " ++ f.path)
                     (30 + (completed + 1) * 60 / total) with
                     current_file := some f.path, total_files := some total,
                     completed_files := some (completed + 1) } ::
                   (run_file_loop (fun _ r => r) gen sid rest (completed + 1)
                     total (step + 1) reg).events,
                 f.path ::
                   (run_file_loop (fun _ r => r) gen sid rest (completed + 1)
                     total (step + 1) reg).files,
                 (run_file_loop (fun _ r => r) gen sid rest (completed + 1) total
                   (step + 1) reg).halted⟩ := by
            simp only [run_file_loop, hhalt, Bool.false_eq_true, if_false, hgf]
          rw [hrun]
          obtain ⟨i1, i2, i3⟩ := ih (completed + 1) total (step + 1)
          refine ⟨i1, i2, ?_⟩
          intro e he
          rcases List.mem_cons.mp he with h1 | h1
          · subst h1
            rfl
          · exact i3 e h1

theorem loop_progress_facts (ext : Nat → Registry → Registry)
    (gen : FileInfo → Option String) (sid : String) :
    ∀ (files : List FileInfo) (completed total step : Nat) (reg : Registry),
      completed + files.length ≤ total →
      (∀ e ∈ (run_file_loop ext gen sid files completed total step reg).events,
        e.etype = "file_created" →
        ∃ c, e.completed_files = some c ∧ e.total_files = some total ∧
          e.progress = 30 + c * 60 / total ∧ completed < c ∧ c ≤ total) ∧
      List.Chain' (fun a b => a ≤ b)
        (((run_file_loop ext gen sid files completed total step reg).events.filter
            (fun e => e.etype == "file_created")).map Event.progress) := by
  intro files
  induction files with
  | nil =>
      intro completed total step reg hlen
      constructor
      · intro e he
        simp [run_file_loop] at he
      · simp [run_file_loop]
  | cons f rest ih =>
      intro completed total step reg hlen
      by_cases hb : (match get_ai_session (ext step reg) sid with
          | none => true
          | some s0 => decide (s0.status ≠ "running")) = true
      · have hrun : run_file_loop ext gen sid (f :: rest) completed total step reg
            = ⟨ext step reg, [mkEvent "stopped" "Generation stopped by user" 0],
               [], true⟩ := by
          simp only [run_file_loop, hb, reduceIte]
        rw [hrun]
        constructor
        · intro e he hfc
          simp only [List.mem_singleton] at he
          subst he
          exact absurd hfc (by decide)
        · simp [mkEvent]
      · have hb' : (match get_ai_session (ext step reg) sid with
            | none => true
            | some s0 => decide (s0.status ≠ "running")) = false :=
          Bool.eq_false_iff.mpr hb
        have hlen' : (completed + 1) + rest.length ≤ total := by
          simp only [List.length_cons] at hlen
          omega
        have hlenr : completed + rest.length ≤ total := by
          simp only [List.length_cons] at hlen
          omega
        cases hgf : gen f with
        | none =>
            have hrun : run_file_loop ext gen sid (f :: rest) completed total
                step reg
                = run_file_loop ext gen sid rest completed total (step + 1)
                    (ext step reg) := by
              simp only [run_file_loop, hb', Bool.false_eq_true, if_false, hgf]
            rw [hrun]
            exact ih completed total (step + 1) (ext step reg) hlenr
        | some c =>
            have hrun : run_file_loop ext gen sid (f :: rest) completed total
                step reg
                = ⟨(run_file_loop ext gen sid rest (completed + 1) total
                      (step + 1) (ext step reg)).reg,
                   { mkEvent "file_created" ("Created " ++ f.path)
                       (30 + (completed + 1) * 60 / total) with
                       current_file := some f.path, total_files := some total,
                       completed_files := some (completed + 1) } ::
                     (run_file_loop ext gen sid rest (completed + 1) total
                       (step + 1) (ext step reg)).events,
                   f.path ::
                     (run_file_loop ext gen sid rest (completed + 1) total
                       (step + 1) (ext step reg)).files,
                   (run_file_loop ext gen sid rest (completed + 1) total
                     (step + 1) (ext step reg)).halted⟩ := by
              simp only [run_file_loop, hb', Bool.false_eq_true, if_false, hgf]
            rw [hrun]
            obtain ⟨ihA, ihB⟩ := ih (completed + 1) total (step + 1)
              (ext step reg) hlen'
            have hc1 : completed + 1 ≤ total := by
              simp only [List.length_cons] at hlen
              omega
            constructor
            · intro e he hfc
              rcases List.mem_cons.mp he with h1 | h1
              · subst h1
                exact ⟨completed + 1, rfl, rfl, rfl, by omega, hc1⟩
              · obtain ⟨c', e1, e2, e3, e4, e5⟩ := ihA e h1 hfc
                exact ⟨c', e1, e2, e3, by omega, e5⟩
            · have hfil : (({ mkEvent "file_created" ("Created " ++ f.path)
                    (30 + (completed + 1) * 60 / total) with
                    current_file := some f.path, total_files := some total,
                    completed_files := some (completed + 1) } ::
                  (run_file_loop ext gen sid rest (completed + 1) total
                    (step + 1) (ext step reg)).events).filter
                    (fun e => e.etype == "file_created"))
                  = { mkEvent "file_created" ("Created " ++ f.path)
                        (30 + (completed + 1) * 60 / total) with
                        current_file := some f.path, total_files := some total,
                        completed_files := some (completed + 1) } ::
                    ((run_file_loop ext gen sid rest (completed + 1) total
                      (step + 1) (ext step reg)).events.filter
                      (fun e => e.etype == "file_created")) := by
                simp [List.filter_cons, mkEvent]
              rw [hfil, List.map_cons, List.chain'_cons']
              refine ⟨?_, ihB⟩
              intro b hb2
              have hb3 := List.mem_of_mem_head? hb2
              obtain ⟨x, hx1, hx2⟩ := List.mem_map.mp hb3
              have hx3 := List.mem_filter.mp hx1
              have hx4 : x.etype = "file_created" := by
                simpa [beq_iff_eq] using hx3.2
              obtain ⟨c', e1, e2, e3, e4, e5⟩ := ihA x hx3.1 hx4
              subst hx2
              rw [e3]
              exact prog_mono _ _ _ (by omega)

/-- Registry state after the three progress writes (10, 20, 30) that the
pipeline performs before entering the step-3 loop. -/
def staged_registry (reg : Registry) (sid : String) (sd : StructureData)
    (now : Nat) : Registry :=
  update_ai_session (update_ai_session (update_ai_session reg sid
      (fun t => { t with status := "running", progress := 10 }) now) sid
      (fun t => { t with progress := 20, context := some sd }) now) sid
      (fun t => { t with progress := 30 }) now

/-- The step-3 loop run performed by a success-path pipeline with no
external registry actions. -/
def pipeline_loop (env : PipelineEnv) (sid : String) (reg : Registry)
    (sd : StructureData) : LoopResult :=
  run_file_loop (fun _ rg => rg) env.gen sid sd.files 0 sd.files.length 0
    (staged_registry reg sid sd env.now)

/-- C9: on a success-path pipeline run (project found, manifest planned and
parsed, scaffold done, no external stop), every `file_created` event carries
progress `30 + completedFiles * 60 / totalFiles` bounded by 90, the
`file_created` progress sequence is non-decreasing, the event stream ends
with the finalize `completed` event at progress 100, and progress is
non-decreasing across the entire event stream of the session. -/
theorem c9_progress_monotone (env : PipelineEnv) (sid : String) (reg : Registry)
    (s : SessionData) (r : String) (sd : StructureData) (cfg : List String)
    (hx : env.project_exists = true)
    (he : env.plan_response = .ok r) (hr : r ≠ "")
    (hp : env.parse_json r = some sd) (hsc : env.scaffold = .ok cfg)
    (hext : env.ext = fun _ rg => rg)
    (h : get_ai_session reg sid = some s) :
    (∀ e ∈ (generate_project env sid reg).events, e.etype = "file_created" →
      ∃ c, e.completed_files = some c ∧ e.total_files = some sd.files.length ∧
        e.progress = 30 + c * 60 / sd.files.length ∧ e.progress ≤ 90) ∧
    List.Chain' (fun a b => a ≤ b)
      (((generate_project env sid reg).events.filter
          (fun e => e.etype == "file_created")).map Event.progress) ∧
    (generate_project env sid reg).events.getLast?
      = some (mkEvent "completed" "Project generation completed successfully!" 100) ∧
    List.Chain' (fun a b : Event => a.progress ≤ b.progress)
      (generate_project env sid reg).events := by
  have hget3 : get_ai_session (staged_registry reg sid sd env.now) sid
      = some { s with status := "running", progress := 30, context := some sd,
                      updated_at := env.now } := by
    unfold staged_registry
    rw [get_update_self, get_update_self, get_update_self, h]
    rfl
  obtain ⟨hH, hR, hE⟩ := loop_no_halt env.gen sid (staged_registry reg sid sd env.now)
    { s with status := "running", progress := 30, context := some sd,
             updated_at := env.now } hget3 rfl sd.files 0 sd.files.length 0
  obtain ⟨hA, hB⟩ := loop_progress_facts (fun _ rg => rg) env.gen sid sd.files 0
    sd.files.length 0 (staged_registry reg sid sd env.now) (by omega)
  have hev : (generate_project env sid reg).events
      = mkEvent "progress"
          "Analyzing requirements and planning project structure..." 10 ::
        mkEvent "progress" "Creating configuration files..." 20 ::
        mkEvent "progress" "Generating main application files..." 30 ::
        ((pipeline_loop env sid reg sd).events
          ++ [mkEvent "progress" "Finalizing project..." 90,
              mkEvent "completed" "Project generation completed successfully!" 100]) := by
    unfold pipeline_loop staged_registry
    have hH2 := hH
    unfold staged_registry at hH2
    simp only [generate_project, hx, Bool.true_eq_false, if_false, he,
      if_neg hr, hp, hsc, hext]
    simp only [hH2, Bool.false_eq_true, if_false]
    simp [List.append_assoc]
  have hAL : ∀ e ∈ (pipeline_loop env sid reg sd).events,
      e.etype = "file_created" →
      ∃ c, e.completed_files = some c ∧ e.total_files = some sd.files.length ∧
        e.progress = 30 + c * 60 / sd.files.length ∧ 0 < c ∧
        c ≤ sd.files.length := by
    intro e he1 hfc
    exact hA e he1 hfc
  have hEL : ∀ e ∈ (pipeline_loop env sid reg sd).events,
      e.etype = "file_created" := hE
  refine ⟨?_, ?_, ?_, ?_⟩
  · intro e he1 hfc
    rw [hev] at he1
    simp only [List.mem_cons, List.mem_append, List.mem_singleton,
      List.not_mem_nil, or_false] at he1
    rcases he1 with h1 | h1 | h1 | h1 | h1 | h1
    · subst h1
      exact absurd hfc (by decide)
    · subst h1
      exact absurd hfc (by decide)
    · subst h1
      exact absurd hfc (by decide)
    · obtain ⟨c, e1, e2, e3, _, e5⟩ := hAL e h1 hfc
      refine ⟨c, e1, e2, e3, ?_⟩
      rw [e3]
      exact prog_le_90 c _ e5
    · subst h1
      exact absurd hfc (by decide)
    · subst h1
      exact absurd hfc (by decide)
  · rw [hev]
    have hfilters :
        ((mkEvent "progress"
            "Analyzing requirements and planning project structure..." 10 ::
          mkEvent "progress" "Creating configuration files..." 20 ::
          mkEvent "progress" "Generating main application files..." 30 ::
          ((pipeline_loop env sid reg sd).events
            ++ [mkEvent "progress" "Finalizing project..." 90,
                mkEvent "completed"
                  "Project generation completed successfully!" 100])).filter
          (fun e => e.etype == "file_created"))
        = (pipeline_loop env sid reg sd).events.filter
            (fun e => e.etype == "file_created") := by
      simp [List.filter_cons, List.filter_append, mkEvent]
    rw [hfilters]
    exact hB
  · rw [hev]
    have hsplit : mkEvent "progress"
          "Analyzing requirements and planning project structure..." 10 ::
        mkEvent "progress" "Creating configuration files..." 20 ::
        mkEvent "progress" "Generating main application files..." 30 ::
        ((pipeline_loop env sid reg sd).events
          ++ [mkEvent "progress" "Finalizing project..." 90,
              mkEvent "completed" "Project generation completed successfully!" 100])
        = (mkEvent "progress"
             "Analyzing requirements and planning project structure..." 10 ::
           mkEvent "progress" "Creating configuration files..." 20 ::
           mkEvent "progress" "Generating main application files..." 30 ::
           ((pipeline_loop env sid reg sd).events
             ++ [mkEvent "progress" "Finalizing project..." 90]))
          ++ [mkEvent "completed" "Project generation completed successfully!" 100] := by
      simp [List.append_assoc]
    rw [hsplit, List.getLast?_concat]
  · rw [hev]
    have hchainLR : List.Chain' (fun a b : Event => a.progress ≤ b.progress)
        (pipeline_loop env sid reg sd).events := by
      have hfself : (pipeline_loop env sid reg sd).events.filter
          (fun e => e.etype == "file_created")
          = (pipeline_loop env sid reg sd).events := by
        rw [List.filter_eq_self]
        intro a ha
        simp [beq_iff_eq, hEL a ha]
      have hB2 := hB
      rw [show ((run_file_loop (fun _ rg => rg) env.gen sid sd.files 0
          sd.files.length 0 (staged_registry reg sid sd env.now)).events.filter
          (fun e => e.etype == "file_created"))
          = (pipeline_loop env sid reg sd).events from hfself] at hB2
      exact (List.chain'_map Event.progress).mp hB2
    refine List.chain'_cons'.mpr ⟨?_, List.chain'_cons'.mpr ⟨?_,
      List.chain'_cons'.mpr ⟨?_, ?_⟩⟩⟩
    · intro b hb1
      simp only [List.head?_cons, Option.mem_def, Option.some.injEq] at hb1
      subst hb1
      decide
    · intro b hb1
      simp only [List.head?_cons, Option.mem_def, Option.some.injEq] at hb1
      subst hb1
      decide
    · intro b hb1
      cases hle : (pipeline_loop env sid reg sd).events with
      | nil =>
          rw [hle] at hb1
          simp only [List.nil_append, List.head?_cons, Option.mem_def,
            Option.some.injEq] at hb1
          subst hb1
          decide
      | cons x xs =>
          rw [hle] at hb1
          simp only [List.cons_append, List.head?_cons, Option.mem_def,
            Option.some.injEq] at hb1
          subst hb1
          have hx : x ∈ (pipeline_loop env sid reg sd).events := by
            rw [hle]
            exact List.mem_cons_self _ _
          obtain ⟨c, _, _, e3, _, _⟩ := hAL x hx (hEL x hx)
          show (30 : Nat) ≤ x.progress
          rw [e3]
          exact Nat.le_add_right 30 _
    · rw [List.chain'_append]
      refine ⟨hchainLR, ?_, ?_⟩
      · exact List.chain'_pair.mpr (by decide)
      · intro x hx1 y hy1
        simp only [List.head?_cons, Option.mem_def, Option.some.injEq] at hy1
        subst hy1
        have hx2 := List.mem_of_mem_getLast? hx1
        obtain ⟨c, _, _, e3, _, e5⟩ := hAL x hx2 (hEL x hx2)
        simp only [mkEvent]
        rw [e3]
        exact prog_le_90 c _ e5

/-- Two-file manifest used by the C9 witness. -/
def c9_sd : StructureData :=
  { files := [{ path := "src/App.tsx", ftype := "component", description := "main" },
              { path := "index.html", ftype := "config", description := "page" }],
    dependencies := ["react"], description := some "demo" }

/-- Success-path pipeline environment used by the C9 witness. -/
def c9_env : PipelineEnv :=
  { project_exists := true,
    plan_response := .ok "manifest",
    parse_json := fun _ => some c9_sd,
    scaffold := .ok ["package.json"],
    gen := fun _ => some "content",
    ext := fun _ rg => rg,
    now := 5 }

/-- Witness for C9 on a concrete two-file success-path run: the file_created
progress values are [60, 90], the sequence is non-decreasing, the last event
is the completed event at 100, and the full event stream is monotone. -/
theorem c9_progress_monotone_witness :
    ((generate_project c9_env "s1"
        [("s1", sampleSession "running")]).events.filter
        (fun e => e.etype == "file_created")).map Event.progress = [60, 90] ∧
    List.Chain' (fun a b => a ≤ b)
      (((generate_project c9_env "s1"
          [("s1", sampleSession "running")]).events.filter
          (fun e => e.etype == "file_created")).map Event.progress) ∧
    (generate_project c9_env "s1" [("s1", sampleSession "running")]).events.getLast?
      = some (mkEvent "completed" "Project generation completed successfully!" 100) ∧
    List.Chain' (fun a b : Event => a.progress ≤ b.progress)
      (generate_project c9_env "s1" [("s1", sampleSession "running")]).events := by
  have H := c9_progress_monotone c9_env "s1" [("s1", sampleSession "running")]
    (sampleSession "running") "manifest" c9_sd ["package.json"]
    rfl rfl (by decide) rfl rfl rfl rfl
  exact ⟨rfl, H.2.1, H.2.2.1, H.2.2.2⟩
